import Mathlib

/-!
# AntennaTracker_VariablesManager: the shared variable store

A shallow embedding of `AntennaTracker_VariablesManager.h`: the `ErrorCode`
enumeration, the value-group records with their default member initialisers,
and the aggregate `VarData`.

Conventions of the embedding

* `uint8_t`, `uint32_t`, `uint` and `uint64_t` are the naturals below
  `2^8`, `2^32`, `2^32` and `2^64`.
* `float` and `double` are carried by their IEEE-754 bit patterns; only the
  conversions the header uses (from the integer literal `0` and from the
  boolean literal `false`) are needed.
* `std::string` is `String`; a C array `T x[n]` is a function `Fin n → T`.
-/

namespace AntennaTracker_VariablesManager

/-! ## Machine types -/

/-- The C++ type `uint8_t`. -/
abbrev uint8_t := Fin 256

/-- The C++ type `uint32_t`. -/
abbrev uint32_t := Fin 4294967296

/-- The type `uint` (glibc spelling of `unsigned int`, 32 bits wide). -/
abbrev uint := Fin 4294967296

/-- The C++ type `uint64_t`. -/
abbrev uint64_t := Fin 18446744073709551616

/-- An IEEE-754 binary32 value (`float`), carried by its bit pattern. -/
structure float where
  bits : Fin 4294967296
deriving DecidableEq

/-- An IEEE-754 binary64 value (`double`), carried by its bit pattern. -/
structure double where
  bits : Fin 18446744073709551616
deriving DecidableEq

/-- The `float` value `+0.0f`: all bits clear. -/
def float.zero : float := ⟨0⟩

/-- The `float` value `1.0f`: biased exponent 127, empty mantissa. -/
def float.one : float := ⟨1065353216⟩

/-- The `double` value `+0.0`: all bits clear. -/
def double.zero : double := ⟨0⟩

/-- The `double` value `1.0`: biased exponent 1023, empty mantissa. -/
def double.one : double := ⟨4607182418800017408⟩

/-- Conversion of a boolean to `double`: `false` becomes `0.0` and `true`
becomes `1.0` (integral promotion followed by an exact conversion). -/
def double.ofBool (b : Bool) : double :=
  if b then double.one else double.zero

/-- The integer literal `0` as an initialiser of a `float` member: the
conversion of the integer zero is exact and gives `+0.0f`. -/
def float.lit0 : float := float.zero

/-- The integer literal `0` as an initialiser of a `double` member: the
conversion of the integer zero is exact and gives `+0.0`. -/
def double.lit0 : double := double.zero

/-- Aggregate initialisation of a C array of length `n` from a brace list:
the listed elements come first, every remaining element is value-initialised
(to `z`, the zero of the element type). -/
def aggregateInit {α : Type} (n : Nat) (z : α) (given : List α) : Fin n → α :=
  fun i => given.getD i.val z

/-! ## `enum ErrorCode` -/

/-- The enumerators of `enum ErrorCode`, in declaration order. -/
inductive ErrorCode where
  | ERROR_GENERAL
  | ERROR_HMI_INIT
  | ERROR_HMI_INPUT
  | ERROR_RESTAPI_INIT
  | ERROR_RESTAPI_INPUT
  | ERROR_ETHERCAT_UPDATE_PEOCESS
  | ERROR_ETHERCAT_INIT
  | ERROR_ETHERNET_INIT
  | ERROR_DRIVER_ALARM
  | ERROR_DRIVER_INIT
  | ERROR_ENCODER_ALARM
  | ERROR_ENCODER_INIT
  | ERROR_GPS_INIT
  | ERROR_TLE_INIT
  | ERROR_WINDSENSOR_INIT
  | ERROR_CONTROLLER_INIT
  | ERROR_CONNECTION
  | ERROR_CALIBRATION
deriving DecidableEq, Repr, Fintype

open ErrorCode

/-- The enumerator list of `enum ErrorCode` as written in the header: each
enumerator with its explicit initialiser, when it has one. Only
`ERROR_GENERAL = 0` has one. -/
def ErrorCode.declaration : List (ErrorCode × Option Int) :=
  [ (ERROR_GENERAL, some 0),
    (ERROR_HMI_INIT, none),
    (ERROR_HMI_INPUT, none),
    (ERROR_RESTAPI_INIT, none),
    (ERROR_RESTAPI_INPUT, none),
    (ERROR_ETHERCAT_UPDATE_PEOCESS, none),
    (ERROR_ETHERCAT_INIT, none),
    (ERROR_ETHERNET_INIT, none),
    (ERROR_DRIVER_ALARM, none),
    (ERROR_DRIVER_INIT, none),
    (ERROR_ENCODER_ALARM, none),
    (ERROR_ENCODER_INIT, none),
    (ERROR_GPS_INIT, none),
    (ERROR_TLE_INIT, none),
    (ERROR_WINDSENSOR_INIT, none),
    (ERROR_CONTROLLER_INIT, none),
    (ERROR_CONNECTION, none),
    (ERROR_CALIBRATION, none) ]

/-- The values of the enumerators of an unscoped enumeration: an enumerator
with an initialiser takes that value, one without takes the value of the
previous enumerator plus one (`next` is the value an enumerator without
initialiser receives at this point; it starts at zero). -/
def enumeratorValues {α : Type} : List (α × Option Int) → Int → List (α × Int)
  | [], _ => []
  | (e, some v) :: rest, _ => (e, v) :: enumeratorValues rest (v + 1)
  | (e, none) :: rest, next => (e, next) :: enumeratorValues rest (next + 1)

/-- The numeric value of an enumerator of `ErrorCode`, read off the
declaration. -/
def ErrorCode.value (e : ErrorCode) : Int :=
  match (enumeratorValues ErrorCode.declaration 0).lookup e with
  | some v => v
  | none => 0

/-! ## Value groups -/

/-- The record `struct TimeVarData`. -/
structure TimeVarData where
  T : uint64_t := 0
  T_dur : uint64_t := 0

/-- The record `struct MotorVarData`. -/
structure MotorVarData where
  amp : float := float.lit0
  primaryValue : float := float.lit0
  secondaryValue : float := float.lit0

/-- The record `struct EncoderVarData`. -/
structure EncoderVarData where
  posRawStep : uint32_t := 0
  posRawDeg : double := double.lit0
  rate : double := double.lit0
  posDeg : double := double.lit0

/-- The record `struct GpsVarData`. -/
structure GpsVarData where
  utcTime : Fin 6 → uint := aggregateInit 6 0 [0]
  fixStatus : Bool := false
  connectStatus : Bool := false
  latitude : double := double.lit0
  longitude : double := double.lit0
  altitude : double := double.lit0
  syncFlag : Bool := false

/-- The record `struct LimitSwitchVarData`. -/
structure LimitSwitchVarData where
  positive : uint8_t := 0
  negative : uint8_t := 0

/-- The record `struct AtitiudeVarData`. -/
structure AtitiudeVarData where
  angle : double := double.lit0
  rate : double := double.lit0
  angleDes : double := double.lit0
  rateDes : double := double.lit0
  direct : double := double.lit0

/-- The record `struct TempVarData`. -/
structure TempVarData where
  cpuTemp : float := float.lit0
  lm35Temp : float := float.lit0

/-- The record `struct TleVarData`: it has no member. -/
structure TleVarData where

/-- The record `struct CalibratorVarData`. -/
structure CalibratorVarData where
  calFlag : Bool := false
  calType : uint8_t := 0
  freedomMode : uint8_t := 0
  data : Fin 4 → double :=
    aggregateInit 4 double.zero [double.lit0, double.lit0, double.lit0, double.lit0]
  DataNumber : uint32_t := 0
  resetDataFlag : Bool := false
  addDataFlag : Bool := false

/-- The record `struct SystemVarData`. The two preset values are `double`
members initialised from the boolean literal `false`. -/
structure SystemVarData where
  adminFlag : Bool := false
  adminPass : String := ""
  ID : String := ""
  trackStatus : Bool := false
  azOffset : double := double.lit0
  elOffset : double := double.lit0
  azimuthCalFlag : Bool := false
  elevationCalFlag : Bool := false
  azimuthPresetValue : double := double.ofBool false
  elevationPresetValue : double := double.ofBool false
  armStatus : Bool := false
  stopFlag : Bool := false
  emergencyStop : uint8_t := 0
  clearErrorFlag : Bool := false
  alarmFlag : Bool := false
  alarmMessage : String := ""
  fatalErrorFlag : Bool := false
  errorMessage : String := ""
  errorCode : ErrorCode := ERROR_GENERAL
  powerStatus : uint8_t := 0
  controlMode : String := "NONE"
  saveParamFlag : Bool := false
  loadParamFlag : Bool := false
  resetToDefaultFlag : Bool := false

/-- The aggregate `class VarData`: every member is public. -/
structure VarData where
  TIM : TimeVarData := {}
  MOT_AZ_MASTER : MotorVarData := {}
  MOT_AZ_SLAVE : MotorVarData := {}
  MOT_EL_MASTER : MotorVarData := {}
  MOT_EL_SLAVE : MotorVarData := {}
  ENC_AZ : EncoderVarData := {}
  ENC_EL : EncoderVarData := {}
  GPS : GpsVarData := {}
  LIM_AZ : LimitSwitchVarData := {}
  LIM_EL : LimitSwitchVarData := {}
  ATT_AZ : AtitiudeVarData := {}
  ATT_EL : AtitiudeVarData := {}
  TMP : TempVarData := {}
  TLE : TleVarData := {}
  SYS : SystemVarData := {}
  calibrator : CalibratorVarData := {}

/-- A default-constructed `VarData` (`VarData v;`): every member takes its
default member initialiser. -/
def VarData.defaultConstructed : VarData := {}


/-! ## Documented meaning of the encoded members -/

/-- The states named in the note of `SystemVarData::powerStatus`. -/
inductive PowerState where
  | on
  | reset
  | shutdown
deriving DecidableEq, Repr

/-- The note of `SystemVarData::powerStatus`: `0: on, 1: reset, 2: shutdown`.
Other values of the byte have no documented meaning. -/
def powerState (x : uint8_t) : Option PowerState :=
  if x.val = 0 then some PowerState.on
  else if x.val = 1 then some PowerState.reset
  else if x.val = 2 then some PowerState.shutdown
  else none

/-! ## The error taxonomy of the specification -/

/-- The error kinds as the specification lists them (its section on error
handling), one constructor per listed kind: nine initialisation failures,
four runtime failures, two input validation failures and the calibration
failure. This definition follows the words of the specification, to be
compared with `ErrorCode`, which follows the header. -/
inductive SpecErrorKind where
  | hmiInit
  | restInit
  | fieldbusInit
  | driverInit
  | encoderInit
  | gpsInit
  | tleInit
  | windSensorInit
  | controllerInit
  | fieldbusUpdateProcessFailure
  | driverAlarm
  | encoderAlarm
  | connectionLoss
  | hmiInput
  | restInput
  | calibrationFailure
deriving DecidableEq, Repr, Fintype

/-- The listed kind an enumerator stands for, matched by name. The sentinel
`ERROR_GENERAL` stands for none, and `ERROR_ETHERNET_INIT` has no kind in the
list (the fieldbus of the list is EtherCAT, which is `ERROR_ETHERCAT_INIT`). -/
def ErrorCode.specKind : ErrorCode → Option SpecErrorKind
  | ERROR_GENERAL => none
  | ERROR_HMI_INIT => some SpecErrorKind.hmiInit
  | ERROR_HMI_INPUT => some SpecErrorKind.hmiInput
  | ERROR_RESTAPI_INIT => some SpecErrorKind.restInit
  | ERROR_RESTAPI_INPUT => some SpecErrorKind.restInput
  | ERROR_ETHERCAT_UPDATE_PEOCESS => some SpecErrorKind.fieldbusUpdateProcessFailure
  | ERROR_ETHERCAT_INIT => some SpecErrorKind.fieldbusInit
  | ERROR_ETHERNET_INIT => none
  | ERROR_DRIVER_ALARM => some SpecErrorKind.driverAlarm
  | ERROR_DRIVER_INIT => some SpecErrorKind.driverInit
  | ERROR_ENCODER_ALARM => some SpecErrorKind.encoderAlarm
  | ERROR_ENCODER_INIT => some SpecErrorKind.encoderInit
  | ERROR_GPS_INIT => some SpecErrorKind.gpsInit
  | ERROR_TLE_INIT => some SpecErrorKind.tleInit
  | ERROR_WINDSENSOR_INIT => some SpecErrorKind.windSensorInit
  | ERROR_CONTROLLER_INIT => some SpecErrorKind.controllerInit
  | ERROR_CONNECTION => some SpecErrorKind.connectionLoss
  | ERROR_CALIBRATION => some SpecErrorKind.calibrationFailure

/-- The taxonomy mirrors the enumeration under a reading `kindOf` of the
enumerators: every enumerator other than the sentinel is one listed kind, and
every listed kind is exactly one enumerator. -/
def TaxonomyMirrors (kindOf : ErrorCode → Option SpecErrorKind) : Prop :=
  (∀ e : ErrorCode, e = ERROR_GENERAL ∨ ∃ k, kindOf e = some k) ∧
    (∀ k : SpecErrorKind, ∃! e : ErrorCode, e ≠ ERROR_GENERAL ∧ kindOf e = some k)

/-! ## Command flags -/

/-- The boolean members the specification calls command flags. -/
inductive CommandFlag where
  | saveParamFlag
  | loadParamFlag
  | resetToDefaultFlag
  | clearErrorFlag
  | addDataFlag
  | resetDataFlag
deriving DecidableEq, Repr

/-- Reading the member a command flag names (`v.SYS.saveParamFlag`, ...,
`v.calibrator.resetDataFlag`). -/
def CommandFlag.read (f : CommandFlag) (v : VarData) : Bool :=
  match f with
  | .saveParamFlag => v.SYS.saveParamFlag
  | .loadParamFlag => v.SYS.loadParamFlag
  | .resetToDefaultFlag => v.SYS.resetToDefaultFlag
  | .clearErrorFlag => v.SYS.clearErrorFlag
  | .addDataFlag => v.calibrator.addDataFlag
  | .resetDataFlag => v.calibrator.resetDataFlag

/-- Assigning to the member a command flag names; every other member of the
store keeps its value. -/
def CommandFlag.assign (f : CommandFlag) (b : Bool) (v : VarData) : VarData :=
  match f with
  | .saveParamFlag => { v with SYS := { v.SYS with saveParamFlag := b } }
  | .loadParamFlag => { v with SYS := { v.SYS with loadParamFlag := b } }
  | .resetToDefaultFlag => { v with SYS := { v.SYS with resetToDefaultFlag := b } }
  | .clearErrorFlag => { v with SYS := { v.SYS with clearErrorFlag := b } }
  | .addDataFlag => { v with calibrator := { v.calibrator with addDataFlag := b } }
  | .resetDataFlag => { v with calibrator := { v.calibrator with resetDataFlag := b } }

/-- The store `w` agrees with the store `v` on every member other than the
member the command flag `f` names: the fourteen value groups without command
flags are equal, and so is every member of `SYS` and of `calibrator`, the six
command flags included, except the one that `f` names. -/
def VarData.agreeOffFlag (f : CommandFlag) (v w : VarData) : Prop :=
  w.TIM = v.TIM ∧ w.MOT_AZ_MASTER = v.MOT_AZ_MASTER ∧ w.MOT_AZ_SLAVE = v.MOT_AZ_SLAVE ∧
  w.MOT_EL_MASTER = v.MOT_EL_MASTER ∧ w.MOT_EL_SLAVE = v.MOT_EL_SLAVE ∧
  w.ENC_AZ = v.ENC_AZ ∧ w.ENC_EL = v.ENC_EL ∧ w.GPS = v.GPS ∧
  w.LIM_AZ = v.LIM_AZ ∧ w.LIM_EL = v.LIM_EL ∧ w.ATT_AZ = v.ATT_AZ ∧
  w.ATT_EL = v.ATT_EL ∧ w.TMP = v.TMP ∧ w.TLE = v.TLE ∧
  w.SYS.adminFlag = v.SYS.adminFlag ∧ w.SYS.adminPass = v.SYS.adminPass ∧
  w.SYS.ID = v.SYS.ID ∧ w.SYS.trackStatus = v.SYS.trackStatus ∧
  w.SYS.azOffset = v.SYS.azOffset ∧ w.SYS.elOffset = v.SYS.elOffset ∧
  w.SYS.azimuthCalFlag = v.SYS.azimuthCalFlag ∧
  w.SYS.elevationCalFlag = v.SYS.elevationCalFlag ∧
  w.SYS.azimuthPresetValue = v.SYS.azimuthPresetValue ∧
  w.SYS.elevationPresetValue = v.SYS.elevationPresetValue ∧
  w.SYS.armStatus = v.SYS.armStatus ∧ w.SYS.stopFlag = v.SYS.stopFlag ∧
  w.SYS.emergencyStop = v.SYS.emergencyStop ∧ w.SYS.alarmFlag = v.SYS.alarmFlag ∧
  w.SYS.alarmMessage = v.SYS.alarmMessage ∧ w.SYS.fatalErrorFlag = v.SYS.fatalErrorFlag ∧
  w.SYS.errorMessage = v.SYS.errorMessage ∧ w.SYS.errorCode = v.SYS.errorCode ∧
  w.SYS.powerStatus = v.SYS.powerStatus ∧ w.SYS.controlMode = v.SYS.controlMode ∧
  w.calibrator.calFlag = v.calibrator.calFlag ∧
  w.calibrator.calType = v.calibrator.calType ∧
  w.calibrator.freedomMode = v.calibrator.freedomMode ∧
  w.calibrator.data = v.calibrator.data ∧
  w.calibrator.DataNumber = v.calibrator.DataNumber ∧
  (f = CommandFlag.saveParamFlag ∨ w.SYS.saveParamFlag = v.SYS.saveParamFlag) ∧
  (f = CommandFlag.loadParamFlag ∨ w.SYS.loadParamFlag = v.SYS.loadParamFlag) ∧
  (f = CommandFlag.resetToDefaultFlag ∨
    w.SYS.resetToDefaultFlag = v.SYS.resetToDefaultFlag) ∧
  (f = CommandFlag.clearErrorFlag ∨ w.SYS.clearErrorFlag = v.SYS.clearErrorFlag) ∧
  (f = CommandFlag.addDataFlag ∨ w.calibrator.addDataFlag = v.calibrator.addDataFlag) ∧
  (f = CommandFlag.resetDataFlag ∨
    w.calibrator.resetDataFlag = v.calibrator.resetDataFlag)

/-- Modelled from the spec: issuing a command. The header has no function
for it; the specification says the issuing interface (HMI or REST) sets the
command flag, which is the assignment of `true` to the member. -/
def issueCommandFlag (f : CommandFlag) (v : VarData) : VarData :=
  f.assign true v

/-- Modelled from the spec: `consumeCommandFlag(flag)`, which the header
does not define. The specification describes it as an atomic read-and-clear:
it reports the value the flag had and leaves the flag false. -/
def consumeCommandFlag (f : CommandFlag) (v : VarData) : Bool × VarData :=
  (f.read v, f.assign false v)

/-- Modelled from the spec: the owning subsystem polling a command flag `n`
times in a row, acting once for every consumption that reports a command.
The result is the number of times it acted and the store it leaves. -/
def pollCommandFlag (f : CommandFlag) : Nat → VarData → Nat × VarData
  | 0, v => (0, v)
  | n + 1, v =>
    let r := consumeCommandFlag f v
    let rest := pollCommandFlag f n r.2
    ((if r.1 then 1 else 0) + rest.1, rest.2)

/-- A store with the cabin emergency button pressed and the system armed. -/
def armedUnderEmergencyState : VarData :=
  { VarData.defaultConstructed with
    SYS := { VarData.defaultConstructed.SYS with emergencyStop := 1, armStatus := true } }

/-- A disarmed store whose azimuth master motor has the primary value `1.0f`. -/
def disarmedDrivingState : VarData :=
  { VarData.defaultConstructed with
    MOT_AZ_MASTER := { VarData.defaultConstructed.MOT_AZ_MASTER with primaryValue := float.one } }

/-! ## Lemmas -/

theorem CommandFlag.read_assign (f : CommandFlag) (b : Bool) (v : VarData) :
    f.read (f.assign b v) = b := by
  cases f <;> rfl

theorem CommandFlag.assign_assign (f : CommandFlag) (b c : Bool) (v : VarData) :
    f.assign b (f.assign c v) = f.assign b v := by
  cases f <;> rfl

theorem pollCommandFlag_of_clear (f : CommandFlag) (n : Nat) (v : VarData)
    (h : f.read v = false) : (pollCommandFlag f n v).1 = 0 := by
  induction n generalizing v with
  | zero => rfl
  | succ k ih =>
    have hk := ih (f.assign false v) (CommandFlag.read_assign f false v)
    simp [pollCommandFlag, consumeCommandFlag, h, hk]

theorem VarData.agreeOffFlag_refl (f : CommandFlag) (v : VarData) :
    VarData.agreeOffFlag f v v := by
  unfold VarData.agreeOffFlag
  repeat' apply And.intro
  all_goals first | rfl | exact Or.inr rfl

theorem VarData.agreeOffFlag_assign (f : CommandFlag) (b : Bool) (v : VarData) :
    VarData.agreeOffFlag f v (f.assign b v) := by
  unfold VarData.agreeOffFlag
  cases f
  all_goals repeat' apply And.intro
  all_goals first | rfl | exact Or.inr rfl | exact Or.inl rfl

theorem pollCommandFlag_store (f : CommandFlag) (n : Nat) (v : VarData) :
    (pollCommandFlag f (n + 1) v).2 = f.assign false v := by
  induction n generalizing v with
  | zero => rfl
  | succ k ih =>
    have hk := ih (f.assign false v)
    rw [CommandFlag.assign_assign] at hk
    have hstep : (pollCommandFlag f (k + 1 + 1) v).2 =
        (pollCommandFlag f (k + 1) (f.assign false v)).2 := rfl
    rw [hstep, hk]

theorem card_errorCode : Fintype.card ErrorCode = 18 := by decide

theorem card_specErrorKind : Fintype.card SpecErrorKind = 16 := by decide

/-! ## Properties of the store -/

/-- C1: in a default-constructed `VarData` every numeric member of every
value group is zero and every boolean flag is false. -/
theorem defaultConstructed_all_zero :
    (VarData.defaultConstructed.TIM.T.val = 0 ∧
      VarData.defaultConstructed.TIM.T_dur.val = 0) ∧
    (VarData.defaultConstructed.MOT_AZ_MASTER.amp = float.zero ∧
      VarData.defaultConstructed.MOT_AZ_MASTER.primaryValue = float.zero ∧
      VarData.defaultConstructed.MOT_AZ_MASTER.secondaryValue = float.zero ∧
      VarData.defaultConstructed.MOT_AZ_SLAVE.amp = float.zero ∧
      VarData.defaultConstructed.MOT_AZ_SLAVE.primaryValue = float.zero ∧
      VarData.defaultConstructed.MOT_AZ_SLAVE.secondaryValue = float.zero ∧
      VarData.defaultConstructed.MOT_EL_MASTER.amp = float.zero ∧
      VarData.defaultConstructed.MOT_EL_MASTER.primaryValue = float.zero ∧
      VarData.defaultConstructed.MOT_EL_MASTER.secondaryValue = float.zero ∧
      VarData.defaultConstructed.MOT_EL_SLAVE.amp = float.zero ∧
      VarData.defaultConstructed.MOT_EL_SLAVE.primaryValue = float.zero ∧
      VarData.defaultConstructed.MOT_EL_SLAVE.secondaryValue = float.zero) ∧
    (VarData.defaultConstructed.ENC_AZ.posRawStep.val = 0 ∧
      VarData.defaultConstructed.ENC_AZ.posRawDeg = double.zero ∧
      VarData.defaultConstructed.ENC_AZ.rate = double.zero ∧
      VarData.defaultConstructed.ENC_AZ.posDeg = double.zero ∧
      VarData.defaultConstructed.ENC_EL.posRawStep.val = 0 ∧
      VarData.defaultConstructed.ENC_EL.posRawDeg = double.zero ∧
      VarData.defaultConstructed.ENC_EL.rate = double.zero ∧
      VarData.defaultConstructed.ENC_EL.posDeg = double.zero) ∧
    ((∀ i : Fin 6, (VarData.defaultConstructed.GPS.utcTime i).val = 0) ∧
      VarData.defaultConstructed.GPS.latitude = double.zero ∧
      VarData.defaultConstructed.GPS.longitude = double.zero ∧
      VarData.defaultConstructed.GPS.altitude = double.zero ∧
      VarData.defaultConstructed.GPS.fixStatus = false ∧
      VarData.defaultConstructed.GPS.connectStatus = false ∧
      VarData.defaultConstructed.GPS.syncFlag = false) ∧
    (VarData.defaultConstructed.LIM_AZ.positive.val = 0 ∧
      VarData.defaultConstructed.LIM_AZ.negative.val = 0 ∧
      VarData.defaultConstructed.LIM_EL.positive.val = 0 ∧
      VarData.defaultConstructed.LIM_EL.negative.val = 0) ∧
    (VarData.defaultConstructed.ATT_AZ.angle = double.zero ∧
      VarData.defaultConstructed.ATT_AZ.rate = double.zero ∧
      VarData.defaultConstructed.ATT_AZ.angleDes = double.zero ∧
      VarData.defaultConstructed.ATT_AZ.rateDes = double.zero ∧
      VarData.defaultConstructed.ATT_AZ.direct = double.zero ∧
      VarData.defaultConstructed.ATT_EL.angle = double.zero ∧
      VarData.defaultConstructed.ATT_EL.rate = double.zero ∧
      VarData.defaultConstructed.ATT_EL.angleDes = double.zero ∧
      VarData.defaultConstructed.ATT_EL.rateDes = double.zero ∧
      VarData.defaultConstructed.ATT_EL.direct = double.zero) ∧
    (VarData.defaultConstructed.TMP.cpuTemp = float.zero ∧
      VarData.defaultConstructed.TMP.lm35Temp = float.zero) ∧
    (VarData.defaultConstructed.calibrator.calFlag = false ∧
      VarData.defaultConstructed.calibrator.calType.val = 0 ∧
      VarData.defaultConstructed.calibrator.freedomMode.val = 0 ∧
      (∀ i : Fin 4, VarData.defaultConstructed.calibrator.data i = double.zero) ∧
      VarData.defaultConstructed.calibrator.DataNumber.val = 0 ∧
      VarData.defaultConstructed.calibrator.resetDataFlag = false ∧
      VarData.defaultConstructed.calibrator.addDataFlag = false) ∧
    (VarData.defaultConstructed.SYS.azOffset = double.zero ∧
      VarData.defaultConstructed.SYS.elOffset = double.zero ∧
      VarData.defaultConstructed.SYS.azimuthPresetValue = double.zero ∧
      VarData.defaultConstructed.SYS.elevationPresetValue = double.zero ∧
      VarData.defaultConstructed.SYS.emergencyStop.val = 0 ∧
      VarData.defaultConstructed.SYS.powerStatus.val = 0 ∧
      VarData.defaultConstructed.SYS.adminFlag = false ∧
      VarData.defaultConstructed.SYS.trackStatus = false ∧
      VarData.defaultConstructed.SYS.azimuthCalFlag = false ∧
      VarData.defaultConstructed.SYS.elevationCalFlag = false ∧
      VarData.defaultConstructed.SYS.armStatus = false ∧
      VarData.defaultConstructed.SYS.stopFlag = false ∧
      VarData.defaultConstructed.SYS.clearErrorFlag = false ∧
      VarData.defaultConstructed.SYS.alarmFlag = false ∧
      VarData.defaultConstructed.SYS.fatalErrorFlag = false ∧
      VarData.defaultConstructed.SYS.saveParamFlag = false ∧
      VarData.defaultConstructed.SYS.loadParamFlag = false ∧
      VarData.defaultConstructed.SYS.resetToDefaultFlag = false) := by
  repeat' apply And.intro
  all_goals decide

/-- C2: in a default-constructed `VarData` the control mode is the string
`"NONE"`, the power status is 0, which the member note reads as on, and the
error code is `ERROR_GENERAL` (numeric value 0) while the fatal error flag is
false and the error message is empty. -/
theorem defaultConstructed_system_sentinels :
    VarData.defaultConstructed.SYS.controlMode = "NONE" ∧
    VarData.defaultConstructed.SYS.powerStatus.val = 0 ∧
    powerState VarData.defaultConstructed.SYS.powerStatus = some PowerState.on ∧
    VarData.defaultConstructed.SYS.errorCode = ERROR_GENERAL ∧
    ErrorCode.value VarData.defaultConstructed.SYS.errorCode = 0 ∧
    VarData.defaultConstructed.SYS.fatalErrorFlag = false ∧
    VarData.defaultConstructed.SYS.errorMessage = "" := by
  refine ⟨rfl, rfl, rfl, rfl, ?_, rfl, rfl⟩
  decide

/-- C3, as stated, fails: `ERROR_ETHERNET_INIT` is an enumerator other than
the sentinel that is none of the listed kinds, and no reading of the
enumerators at all makes the seventeen enumerators other than the sentinel
correspond one to one to the sixteen listed kinds. -/
theorem taxonomy_misses_ethernet_init :
    ERROR_ETHERNET_INIT ≠ ERROR_GENERAL ∧
    ErrorCode.specKind ERROR_ETHERNET_INIT = none ∧
    ¬ ∃ kindOf : ErrorCode → Option SpecErrorKind, TaxonomyMirrors kindOf := by
  refine ⟨by decide, rfl, ?_⟩
  rintro ⟨kindOf, hall, huniq⟩
  have hinj : Function.Injective
      (fun e : ErrorCode => if e = ERROR_GENERAL then none else kindOf e) := by
    intro a b hab
    by_cases ha : a = ERROR_GENERAL
    · by_cases hb : b = ERROR_GENERAL
      · rw [ha, hb]
      · rcases hall b with hb0 | ⟨k, hk⟩
        · exact absurd hb0 hb
        · simp [ha, hb, hk] at hab
    · by_cases hb : b = ERROR_GENERAL
      · rcases hall a with ha0 | ⟨k, hk⟩
        · exact absurd ha0 ha
        · simp [ha, hb, hk] at hab
      · rcases hall a with ha0 | ⟨k, hk⟩
        · exact absurd ha0 ha
        · have hkb : kindOf b = some k := by
            have := hab
            simp [ha, hb, hk] at this
            exact this.symm
          exact (huniq k).unique ⟨ha, hk⟩ ⟨hb, hkb⟩
  have hcard := Fintype.card_le_of_injective _ hinj
  rw [Fintype.card_option, card_errorCode, card_specErrorKind] at hcard
  omega

/-- C3, amended: every enumerator other than the sentinel `ERROR_GENERAL`
and other than `ERROR_ETHERNET_INIT` is one of the sixteen listed kinds, every
listed kind is exactly one enumerator, and the two enumerators left out stand
for no listed kind. -/
theorem taxonomy_mirrors_except_ethernet_init :
    (∀ e : ErrorCode, e = ERROR_GENERAL ∨ e = ERROR_ETHERNET_INIT ∨
      ∃ k, ErrorCode.specKind e = some k) ∧
    (∀ k : SpecErrorKind, ∃! e : ErrorCode, ErrorCode.specKind e = some k) ∧
    ErrorCode.specKind ERROR_GENERAL = none ∧
    ErrorCode.specKind ERROR_ETHERNET_INIT = none := by
  refine ⟨?_, ?_, rfl, rfl⟩
  · intro e
    cases e <;> simp [ErrorCode.specKind]
  · intro k
    cases k
    all_goals first
      | exact ⟨ERROR_HMI_INIT, rfl, fun e he => by cases e <;> simp_all [ErrorCode.specKind]⟩
      | exact ⟨ERROR_HMI_INPUT, rfl, fun e he => by cases e <;> simp_all [ErrorCode.specKind]⟩
      | exact ⟨ERROR_RESTAPI_INIT, rfl, fun e he => by cases e <;> simp_all [ErrorCode.specKind]⟩
      | exact ⟨ERROR_RESTAPI_INPUT, rfl, fun e he => by cases e <;> simp_all [ErrorCode.specKind]⟩
      | exact ⟨ERROR_ETHERCAT_UPDATE_PEOCESS, rfl, fun e he => by cases e <;> simp_all [ErrorCode.specKind]⟩
      | exact ⟨ERROR_ETHERCAT_INIT, rfl, fun e he => by cases e <;> simp_all [ErrorCode.specKind]⟩
      | exact ⟨ERROR_DRIVER_ALARM, rfl, fun e he => by cases e <;> simp_all [ErrorCode.specKind]⟩
      | exact ⟨ERROR_DRIVER_INIT, rfl, fun e he => by cases e <;> simp_all [ErrorCode.specKind]⟩
      | exact ⟨ERROR_ENCODER_ALARM, rfl, fun e he => by cases e <;> simp_all [ErrorCode.specKind]⟩
      | exact ⟨ERROR_ENCODER_INIT, rfl, fun e he => by cases e <;> simp_all [ErrorCode.specKind]⟩
      | exact ⟨ERROR_GPS_INIT, rfl, fun e he => by cases e <;> simp_all [ErrorCode.specKind]⟩
      | exact ⟨ERROR_TLE_INIT, rfl, fun e he => by cases e <;> simp_all [ErrorCode.specKind]⟩
      | exact ⟨ERROR_WINDSENSOR_INIT, rfl, fun e he => by cases e <;> simp_all [ErrorCode.specKind]⟩
      | exact ⟨ERROR_CONTROLLER_INIT, rfl, fun e he => by cases e <;> simp_all [ErrorCode.specKind]⟩
      | exact ⟨ERROR_CONNECTION, rfl, fun e he => by cases e <;> simp_all [ErrorCode.specKind]⟩
      | exact ⟨ERROR_CALIBRATION, rfl, fun e he => by cases e <;> simp_all [ErrorCode.specKind]⟩

/-- C4: the type of the store admits states that break the cross-field
invariants of the data model: one with a non-zero emergency stop mask and
the arm status true, and one with the arm status false and a non-zero motor
primary value. -/
theorem varData_admits_invariant_violations :
    (∃ v : VarData, v.SYS.emergencyStop ≠ 0 ∧ v.SYS.armStatus = true) ∧
    (∃ v : VarData, v.SYS.armStatus = false ∧
      v.MOT_AZ_MASTER.primaryValue ≠ float.zero) :=
  ⟨⟨armedUnderEmergencyState, by decide, rfl⟩, ⟨disarmedDrivingState, rfl, by decide⟩⟩

/-- C8: for every command flag and every store state, issuing the flag twice
leaves the store that issuing it once leaves; the first consumption then
reports the command and leaves the flag false, a second consumption reports
no command, and any number of polls (at least one) acts exactly once. A
consumption reports the value the named member had and leaves it false, an
issue leaves it true, and issuing, consuming and polling change no other
member of the store. -/
theorem consumeCommandFlag_exactly_once (f : CommandFlag) (v : VarData) (n : Nat) :
    issueCommandFlag f (issueCommandFlag f v) = issueCommandFlag f v ∧
    (consumeCommandFlag f (issueCommandFlag f (issueCommandFlag f v))).1 = true ∧
    f.read (consumeCommandFlag f (issueCommandFlag f (issueCommandFlag f v))).2 = false ∧
    (consumeCommandFlag f
      (consumeCommandFlag f (issueCommandFlag f (issueCommandFlag f v))).2).1 = false ∧
    (pollCommandFlag f (n + 1) (issueCommandFlag f (issueCommandFlag f v))).1 = 1 ∧
    (consumeCommandFlag f v).1 = f.read v ∧
    f.read (consumeCommandFlag f v).2 = false ∧
    f.read (issueCommandFlag f v) = true ∧
    VarData.agreeOffFlag f v (issueCommandFlag f v) ∧
    VarData.agreeOffFlag f v (consumeCommandFlag f v).2 ∧
    VarData.agreeOffFlag f v (pollCommandFlag f n v).2 ∧
    (CommandFlag.read CommandFlag.saveParamFlag v = v.SYS.saveParamFlag ∧
      CommandFlag.read CommandFlag.loadParamFlag v = v.SYS.loadParamFlag ∧
      CommandFlag.read CommandFlag.resetToDefaultFlag v = v.SYS.resetToDefaultFlag ∧
      CommandFlag.read CommandFlag.clearErrorFlag v = v.SYS.clearErrorFlag ∧
      CommandFlag.read CommandFlag.addDataFlag v = v.calibrator.addDataFlag ∧
      CommandFlag.read CommandFlag.resetDataFlag v = v.calibrator.resetDataFlag) := by
  have hclear : ∀ w : VarData, f.read (f.assign false w) = false :=
    fun w => CommandFlag.read_assign f false w
  refine ⟨CommandFlag.assign_assign f true true v, ?_, ?_, ?_, ?_, rfl, hclear v,
    CommandFlag.read_assign f true v, VarData.agreeOffFlag_assign f true v,
    VarData.agreeOffFlag_assign f false v, ?_, ⟨rfl, rfl, rfl, rfl, rfl, rfl⟩⟩
  · exact CommandFlag.read_assign f true _
  · exact hclear _
  · exact hclear _
  · have hset : f.read (issueCommandFlag f (issueCommandFlag f v)) = true :=
      CommandFlag.read_assign f true _
    have hrest := pollCommandFlag_of_clear f n
      (f.assign false (issueCommandFlag f (issueCommandFlag f v))) (hclear _)
    simp [pollCommandFlag, consumeCommandFlag, hset, hrest]
  · cases n with
    | zero => exact VarData.agreeOffFlag_refl f v
    | succ k =>
      rw [pollCommandFlag_store]
      exact VarData.agreeOffFlag_assign f false v

/-- C10: the numeric encoding of `ErrorCode` is contiguous and injective:
the declaration has eighteen enumerators, every kind among them, their
values are 0 through 17 in declaration order, `ERROR_GENERAL` is 0,
`ERROR_CALIBRATION` is 17, and distinct kinds have distinct values. -/
theorem errorCode_values_contiguous_injective :
    ErrorCode.declaration.length = 18 ∧
    (∀ e : ErrorCode, e ∈ ErrorCode.declaration.map Prod.fst) ∧
    (enumeratorValues ErrorCode.declaration 0).map Prod.fst =
      ErrorCode.declaration.map Prod.fst ∧
    (enumeratorValues ErrorCode.declaration 0).map Prod.snd =
      (List.range 18).map Int.ofNat ∧
    ErrorCode.value ERROR_GENERAL = 0 ∧
    ErrorCode.value ERROR_CALIBRATION = 17 ∧
    Function.Injective ErrorCode.value := by
  refine ⟨rfl, by decide, by decide, by decide, by decide, by decide, ?_⟩
  intro a b hab
  cases a <;> cases b <;> first | rfl | exact absurd hab (by decide)

end AntennaTracker_VariablesManager
